import Mathlib

set_option maxRecDepth 100000

/-!
Verification of the donos DNS resolver's wire codec and query pipeline.

The development shallowly embeds the Rust sources:
  - the 512-octet packet buffer with its reader and writer primitives
    (donos-proto/src/buffer/{mod,reader,writer}.rs, which is also the
    layout the current donos-parser crate compiles against);
  - the name codec with compression-pointer jumps and memoisation;
  - the header, question, record and packet codecs
    (donos-parser/src/packet/{header,mod}.rs and
    donos-proto/src/packet/{mod,question,record}.rs);
  - the DNS handler (src/dns/handler.rs), the in-memory TTL cache
    (src/repository/cache.rs).

Modelling conventions:
  - Machine integers are Nat; every `as u8` / `as u16` cast in the source
    is rendered as an explicit `% 256` / `% 65536`.
  - Rust strings are byte lists (`List Nat`); `String::from_utf8_lossy`
    followed by `str::to_lowercase` is modelled exactly on ASCII bytes
    (a byte below 0x80 is kept, with A-Z mapped to a-z) while each byte
    at or above 0x80 becomes the UTF-8 replacement sequence ef bf bd.
  - Fallible Rust code returns Except; a Rust panic reached through
    unchecked indexing or `unwrap`/`todo!` is modelled explicitly
    (the `panicked` writer error, the `HandlerOutcome.panic` outcome).
  - The non-structural recursion of the name codec is run on an explicit
    fuel argument; a proved sufficiency theorem shows the fuel chosen by
    the embedding can never run out, so the fuel-exhausted branch of the
    wrapper is dead code (discharged by `absurd`).
  - HashMap is modelled by an association list where insertion prepends
    (shadowing earlier bindings) and lookup returns the first match.
-/

namespace Donos

/-- Association-list lookup, first match wins (models HashMap::get). -/
def assocFind {α β : Type} [DecidableEq α] : List (α × β) → α → Option β
  | [], _ => none
  | (k1, v) :: rest, k => if k1 = k then some v else assocFind rest k

/-- Association-list removal of every binding of a key (models HashMap removal). -/
def assocErase {α β : Type} [DecidableEq α] : List (α × β) → α → List (α × β)
  | [], _ => []
  | (k1, v) :: rest, k =>
    if k1 = k then assocErase rest k else (k1, v) :: assocErase rest k

deriving instance DecidableEq for Except

/-- Enumerated decode errors of the wire codec
(donos-proto/src/buffer/reader.rs, ReaderError). -/
inductive ReaderError where
  | endOfBuffer
  | tooManyJumps (limit : Nat)
  | invalidResponseCode (code : Nat)
  | invalidClass (code : Nat)
deriving DecidableEq

/-- Enumerated encode errors (donos-proto/src/buffer/writer.rs, WriterError);
the source's typo SingleLabelLengh is kept.  The extra `panicked` value is the
embedding's rendering of a Rust panic reached through the unchecked array
indexing in `set` — the source type has only the first two constructors. -/
inductive WriterError where
  | endOfBuffer
  | singleLabelLengh
  | panicked
deriving DecidableEq

/-- The 512-octet datagram buffer with cursor and the two label-compression
memo tables (donos-proto/src/buffer/mod.rs, BytePacketBuffer). -/
structure BytePacketBuffer where
  buf : List Nat
  pos : Nat
  readingLabels : List (Nat × List Nat)
  writingLabels : List (List Nat × Nat)
deriving DecidableEq

/-- Fresh zeroed buffer (BytePacketBuffer::default). -/
def BytePacketBuffer.default : BytePacketBuffer :=
  { buf := List.replicate 512 0, pos := 0, readingLabels := [], writingLabels := [] }

/-- Wrap received bytes into a buffer with cursor 0 (BytePacketBuffer::new;
the constructor itself is not in the source tree — modelled from the spec:
each decode of a single message owns its own fresh buffer over the datagram). -/
def BytePacketBuffer.new (bytes : List Nat) : BytePacketBuffer :=
  { buf := bytes, pos := 0, readingLabels := [], writingLabels := [] }

/-- Advance the cursor (reader.rs step; the source wraps the result in an
unconditional Ok, so the operation is modelled as total). -/
def BytePacketBuffer.step (st : BytePacketBuffer) (steps : Nat) : BytePacketBuffer :=
  { st with pos := st.pos + steps }

/-- Set the cursor (reader.rs seek; unconditionally Ok in the source). -/
def BytePacketBuffer.seek (st : BytePacketBuffer) (pos : Nat) : BytePacketBuffer :=
  { st with pos := pos }

/-- Read one octet at the cursor and advance (reader.rs read). -/
def BytePacketBuffer.read (st : BytePacketBuffer) :
    Except ReaderError (Nat × BytePacketBuffer) :=
  if st.pos ≥ 512 then .error .endOfBuffer
  else .ok (st.buf.getD st.pos 0, { st with pos := st.pos + 1 })

/-- Peek one octet at an absolute offset (reader.rs get). -/
def BytePacketBuffer.get (st : BytePacketBuffer) (pos : Nat) : Except ReaderError Nat :=
  if pos ≥ 512 then .error .endOfBuffer
  else .ok (st.buf.getD pos 0)

/-- Octet slice at [start, start+len) (reader.rs get_range): the source
computes end = start + len and rejects end >= 512. -/
def BytePacketBuffer.get_range (st : BytePacketBuffer) (start len : Nat) :
    Except ReaderError (List Nat) :=
  if start + len ≥ 512 then .error .endOfBuffer
  else .ok ((st.buf.drop start).take len)

/-- get_range at explicit machine width: the usize addition wraps modulo 2^64
and the subsequent slice `buf[start..end]` panics (`none`) when start > end or
end exceeds the array length, exactly as in Rust.  `get_range` above is the
idealisation of this function on the non-wrapping domain, which covers every
call the codec makes. -/
def BytePacketBuffer.get_range_machine (st : BytePacketBuffer) (start len : Nat) :
    Option (Except ReaderError (List Nat)) :=
  let e := (start + len) % (2 ^ 64)
  if e ≥ 512 then some (.error .endOfBuffer)
  else if start ≤ e ∧ e ≤ st.buf.length then
    some (.ok ((st.buf.drop start).take (e - start)))
  else none

/-- Big-endian 16-bit read (reader.rs read_u16). -/
def BytePacketBuffer.read_u16 (st : BytePacketBuffer) :
    Except ReaderError (Nat × BytePacketBuffer) :=
  match st.read with
  | .error e => .error e
  | .ok (a, st1) =>
    match st1.read with
    | .error e => .error e
    | .ok (b, st2) => .ok ((a <<< 8) ||| b, st2)

/-- Big-endian 32-bit read (reader.rs read_u32). -/
def BytePacketBuffer.read_u32 (st : BytePacketBuffer) :
    Except ReaderError (Nat × BytePacketBuffer) :=
  match st.read_u16 with
  | .error e => .error e
  | .ok (hi, st1) =>
    match st1.read_u16 with
    | .error e => .error e
    | .ok (lo, st2) => .ok ((hi <<< 16) ||| lo, st2)

/-- ASCII lowercasing of one byte (the effect of str::to_lowercase on ASCII). -/
def ascii_lower (b : Nat) : Nat := if 65 ≤ b ∧ b ≤ 90 then b + 32 else b

/-- Label bytes through String::from_utf8_lossy followed by to_lowercase,
modelled byte-wise: ASCII is exact, a non-ASCII byte becomes the UTF-8
replacement sequence (the decoder treats labels as ASCII per the spec). -/
def lossy_lowercase (bytes : List Nat) : List Nat :=
  (bytes.map fun b => if b < 128 then [ascii_lower b] else [239, 191, 189]).flatten

/-- str::split_once('.') on a byte-list name: the part before the first dot
byte (46) and the part after it, or none when no dot occurs. -/
def split_once_dot : List Nat → Option (List Nat × List Nat)
  | [] => none
  | b :: rest =>
    if b = 46 then some ([], rest)
    else
      match split_once_dot rest with
      | none => none
      | some (head, tail) => some (b :: head, tail)

/-- The jump cap of the name decoder (reader.rs MAX_JUMP). -/
def MAX_JUMP : Nat := 5

/-- The core of the name decoder (reader.rs recursive_read_qname), generalised
over the jump cap `maxJump` (the source fixes it to MAX_JUMP) and run on fuel;
`none` means the fuel ran out, which `recursive_read_qname_fuel_sufficient`
shows cannot happen at the fuel the wrapper supplies.  Returns the updated
buffer (its memo table grows), the decoded name and the position the cursor
should move to. -/
def recursive_read_qname_cap (maxJump : Nat) :
    Nat → BytePacketBuffer → Nat → Nat →
    Option (Except ReaderError (BytePacketBuffer × List Nat × Nat))
  | 0, _, _, _ => none
  | fuel + 1, st, position, jumps_count =>
    if jumps_count > maxJump then some (.error (.tooManyJumps maxJump))
    else
      match st.get position with
      | .error e => some (.error e)
      | .ok len =>
        if len &&& 0xC0 == 0xC0 then
          match st.get (position + 1) with
          | .error e => some (.error e)
          | .ok b2 =>
            let offset := ((len ^^^ 0xC0) <<< 8) ||| b2
            match assocFind st.readingLabels offset with
            | some label => some (.ok (st, label, position + 2))
            | none =>
              match recursive_read_qname_cap maxJump fuel st offset (jumps_count + 1) with
              | none => none
              | some (.error e) => some (.error e)
              | some (.ok (st1, label, _)) => some (.ok (st1, label, position + 2))
        else if len == 0 then some (.ok (st, [], position + 1))
        else
          match st.get_range (position + 1) len with
          | .error e => some (.error e)
          | .ok str_buffer =>
            let label := lossy_lowercase str_buffer
            match recursive_read_qname_cap maxJump fuel st (position + 1 + len) jumps_count with
            | none => none
            | some (.error e) => some (.error e)
            | some (.ok (st1, next_label, next_position)) =>
              let full := if next_label.isEmpty then label else label ++ 46 :: next_label
              some (.ok ({ st1 with readingLabels := (position, full) :: st1.readingLabels },
                full, next_position))

/-- Fuel supplied to the name decoder: the bound of
`recursive_read_qname_fuel_sufficient` at maxJump = 5, position 0, no jumps. -/
def READ_QNAME_FUEL : Nat := 3591

theorem get_pos_lt {st : BytePacketBuffer} {pos v : Nat}
    (h : st.get pos = .ok v) : pos < 512 := by
  by_contra hlt
  simp [BytePacketBuffer.get, Nat.ge_of_not_lt hlt] at h

/-- The decoder cannot run out of fuel: (maxJump + 1 - jumps) * 513 +
(512 - position) + 1 units always suffice, because every pointer follow
consumes one unit of the jump budget and every label strictly advances the
position inside the 512-octet window. -/
theorem recursive_read_qname_fuel_sufficient (maxJump : Nat) :
    ∀ (fuel : Nat) (st : BytePacketBuffer) (position jumps_count : Nat),
      (maxJump + 1 - jumps_count) * 513 + (512 - position) + 1 ≤ fuel →
      recursive_read_qname_cap maxJump fuel st position jumps_count ≠ none := by
  intro fuel
  induction fuel with
  | zero => intro st position jumps_count h; omega
  | succ fuel ih =>
    intro st position jumps_count h
    rw [recursive_read_qname_cap]
    split
    · simp
    · rename_i hguard
      cases hget : st.get position with
      | error e => simp
      | ok len =>
        simp only
        have hpos : position < 512 := get_pos_lt hget
        split
        · cases hget2 : st.get (position + 1) with
          | error e => simp
          | ok b2 =>
            simp only
            split
            · simp
            · have hrec := ih st ((((len ^^^ 0xC0) <<< 8) ||| b2)) (jumps_count + 1)
                (by
                  have hj : jumps_count ≤ maxJump := by omega
                  have : (maxJump + 1 - (jumps_count + 1)) * 513 + 513 =
                      (maxJump + 1 - jumps_count) * 513 := by
                    have hstep : maxJump + 1 - jumps_count =
                        (maxJump + 1 - (jumps_count + 1)) + 1 := by omega
                    rw [hstep]; ring
                  omega)
              cases hcall : recursive_read_qname_cap maxJump fuel st
                  ((((len ^^^ 0xC0) <<< 8) ||| b2)) (jumps_count + 1) with
              | none => exact absurd hcall hrec
              | some r => cases r <;> simp
        · split
          · simp
          · cases hr : st.get_range (position + 1) len with
            | error e => simp
            | ok str_buffer =>
              simp only
              have hrec := ih st (position + 1 + len) jumps_count (by omega)
              cases hcall : recursive_read_qname_cap maxJump fuel st
                  (position + 1 + len) jumps_count with
              | none => exact absurd hcall hrec
              | some r => cases r <;> simp

theorem read_qname_fuel_ne_none (st : BytePacketBuffer) :
    recursive_read_qname_cap MAX_JUMP READ_QNAME_FUEL st st.pos 0 ≠ none :=
  recursive_read_qname_fuel_sufficient MAX_JUMP READ_QNAME_FUEL st st.pos 0
    (by unfold MAX_JUMP READ_QNAME_FUEL; omega)

/-- The name decoder (reader.rs read_qname): run the recursion from the
cursor with an empty jump count, then seek past the first pointer taken
(or past the terminator). -/
def BytePacketBuffer.read_qname (st : BytePacketBuffer) :
    Except ReaderError (BytePacketBuffer × List Nat) :=
  match h : recursive_read_qname_cap MAX_JUMP READ_QNAME_FUEL st st.pos 0 with
  | some (.ok (st1, label, position)) => .ok ({ st1 with pos := position }, label)
  | some (.error e) => .error e
  | none => absurd h (read_qname_fuel_ne_none st)

/-- The name decoder with an arbitrary jump budget, used to express what
"an input needs at most k pointer follows" means; the source decoder is
exactly the budget-MAX_JUMP member of this family. -/
def read_qname_cap (k : Nat) (st : BytePacketBuffer) :
    Option (Except ReaderError (BytePacketBuffer × List Nat × Nat)) :=
  recursive_read_qname_cap k READ_QNAME_FUEL st st.pos 0

/-- Unchecked byte store (writer.rs set): `self.buf[pos] = val` carries no
bounds check in the source, so an out-of-range position is a Rust panic,
rendered here as the `panicked` error. -/
def BytePacketBuffer.set (st : BytePacketBuffer) (pos val : Nat) :
    Except WriterError BytePacketBuffer :=
  if pos < 512 then .ok { st with buf := st.buf.set pos val }
  else .error .panicked

/-- Unchecked 16-bit back-patch (writer.rs set_u16). -/
def BytePacketBuffer.set_u16 (st : BytePacketBuffer) (pos val : Nat) :
    Except WriterError BytePacketBuffer :=
  match st.set pos ((val >>> 8) % 256) with
  | .error e => .error e
  | .ok st1 => st1.set (pos + 1) (val % 256)

/-- Checked byte write at the cursor (writer.rs write). -/
def BytePacketBuffer.write (st : BytePacketBuffer) (val : Nat) :
    Except WriterError BytePacketBuffer :=
  if st.pos ≥ 512 then .error .endOfBuffer
  else .ok { st with buf := st.buf.set st.pos val, pos := st.pos + 1 }

/-- writer.rs write_u8. -/
def BytePacketBuffer.write_u8 (st : BytePacketBuffer) (val : Nat) :
    Except WriterError BytePacketBuffer :=
  st.write val

/-- Big-endian 16-bit write (writer.rs write_u16); the source's `as u8`
casts are the `% 256` masks. -/
def BytePacketBuffer.write_u16 (st : BytePacketBuffer) (val : Nat) :
    Except WriterError BytePacketBuffer :=
  match st.write ((val >>> 8) % 256) with
  | .error e => .error e
  | .ok st1 => st1.write (val % 256)

/-- Big-endian 32-bit write (writer.rs write_u32). -/
def BytePacketBuffer.write_u32 (st : BytePacketBuffer) (val : Nat) :
    Except WriterError BytePacketBuffer :=
  match st.write ((val >>> 24) &&& 0xFF) with
  | .error e => .error e
  | .ok st1 =>
    match st1.write ((val >>> 16) &&& 0xFF) with
    | .error e => .error e
    | .ok st2 =>
      match st2.write ((val >>> 8) &&& 0xFF) with
      | .error e => .error e
      | .ok st3 => st3.write (val &&& 0xFF)

/-- The body of `for b in label.as_bytes() { self.write_u8(*b)?; }`. -/
def write_bytes : BytePacketBuffer → List Nat → Except WriterError BytePacketBuffer
  | st, [] => .ok st
  | st, b :: rest =>
    match st.write_u8 b with
    | .error e => .error e
    | .ok st1 => write_bytes st1 rest

/-- One label (writer.rs write_label).  Note the source computes
`let len = label.len() as u8` BEFORE comparing against 0x3f, so the length
is truncated modulo 256 before the check. -/
def BytePacketBuffer.write_label (st : BytePacketBuffer) (label : List Nat) :
    Except WriterError BytePacketBuffer :=
  let len := label.length % 256
  if len > 0x3f then .error .singleLabelLengh
  else
    match st.write_u8 len with
    | .error e => .error e
    | .ok st1 => write_bytes st1 label

/-- The compressing name encoder (writer.rs recursive_write_qname), run on
fuel; the recursion is on the suffix after the first dot, which is strictly
shorter, so `recursive_write_qname_fuel_sufficient` discharges the fuel.
Returns the updated buffer and whether a pointer ended the name. -/
def recursive_write_qname_cap :
    Nat → BytePacketBuffer → List Nat →
    Option (Except WriterError (BytePacketBuffer × Bool))
  | 0, _, _ => none
  | fuel + 1, st, qname =>
    match assocFind st.writingLabels qname with
    | some index =>
      match st.write_u16 (0xC000 ||| (index % 65536)) with
      | .error e => some (.error e)
      | .ok st1 => some (.ok (st1, true))
    | none =>
      let st0 : BytePacketBuffer :=
        { st with writingLabels := (qname, st.pos) :: st.writingLabels }
      match split_once_dot qname with
      | some (head, tail) =>
        match st0.write_label head with
        | .error e => some (.error e)
        | .ok st1 => recursive_write_qname_cap fuel st1 tail
      | none =>
        match st0.write_label qname with
        | .error e => some (.error e)
        | .ok st1 => some (.ok (st1, false))

theorem split_once_dot_tail_lt {qname head tail : List Nat}
    (h : split_once_dot qname = some (head, tail)) : tail.length < qname.length := by
  induction qname generalizing head tail with
  | nil => simp [split_once_dot] at h
  | cons b rest ih =>
    rw [split_once_dot] at h
    split at h
    · cases h; simp
    · cases hs : split_once_dot rest with
      | none => rw [hs] at h; cases h
      | some p =>
        rw [hs] at h
        cases p with
        | mk h1 t1 =>
          simp only at h
          cases h
          have := ih hs
          simp
          omega

theorem recursive_write_qname_fuel_sufficient :
    ∀ (fuel : Nat) (st : BytePacketBuffer) (qname : List Nat),
      qname.length < fuel → recursive_write_qname_cap fuel st qname ≠ none := by
  intro fuel
  induction fuel with
  | zero => intro st qname h; omega
  | succ fuel ih =>
    intro st qname h
    rw [recursive_write_qname_cap]
    cases hf : assocFind st.writingLabels qname with
    | some index =>
      simp only
      cases st.write_u16 (0xC000 ||| (index % 65536)) <;> simp
    | none =>
      simp only
      cases hs : split_once_dot qname with
      | some p =>
        cases p with
        | mk head tail =>
          simp only
          have htail := split_once_dot_tail_lt hs
          cases ({ st with writingLabels := (qname, st.pos) :: st.writingLabels} :
              BytePacketBuffer).write_label head with
          | error e => simp
          | ok st1 => exact ih st1 tail (by omega)
      | none =>
        simp only
        cases ({ st with writingLabels := (qname, st.pos) :: st.writingLabels} :
            BytePacketBuffer).write_label qname <;> simp

/-- The name encoder (writer.rs write_qname): run the compressing recursion
and append the terminating zero octet unless a pointer ended the name. -/
def BytePacketBuffer.write_qname (st : BytePacketBuffer) (qname : List Nat) :
    Except WriterError BytePacketBuffer :=
  match h : recursive_write_qname_cap (qname.length + 1) st qname with
  | some (.error e) => .error e
  | some (.ok (st1, true)) => .ok st1
  | some (.ok (st1, false)) => st1.write_u8 0
  | none => absurd h (recursive_write_qname_fuel_sufficient (qname.length + 1) st qname
      (by omega))

/-- Record/question type codes (packet/mod.rs QueryType, identical in
donos-parser and donos-proto). -/
inductive QueryType where
  | Unknown (v : Nat)
  | A
  | NS
  | CNAME
  | MX
  | AAAA
deriving DecidableEq

/-- QueryType::into_num. -/
def QueryType.into_num : QueryType → Nat
  | .Unknown x => x
  | .A => 1
  | .NS => 2
  | .CNAME => 5
  | .MX => 15
  | .AAAA => 28

/-- QueryType::from_num. -/
def QueryType.from_num (num : Nat) : QueryType :=
  if num = 1 then .A
  else if num = 2 then .NS
  else if num = 5 then .CNAME
  else if num = 15 then .MX
  else if num = 28 then .AAAA
  else .Unknown num

/-- Question classes (donos-proto/src/packet/question.rs DnsClass). -/
inductive DnsClass where
  | Internet
  | Csnet
  | Chaos
  | Hesiod
deriving DecidableEq

/-- The `self.qclass as u16` discriminant values. -/
def DnsClass.into_num : DnsClass → Nat
  | .Internet => 1
  | .Csnet => 2
  | .Chaos => 3
  | .Hesiod => 4

/-- TryFrom u16 for DnsClass: any value outside 1..=4 is a hard decode
error. -/
def DnsClass.try_from (value : Nat) : Except ReaderError DnsClass :=
  if value = 1 then .ok .Internet
  else if value = 2 then .ok .Csnet
  else if value = 3 then .ok .Chaos
  else if value = 4 then .ok .Hesiod
  else .error (.invalidClass value)

/-- Response codes (donos-parser/src/packet/header.rs ResponseCode). -/
inductive ResponseCode where
  | NoError
  | FormatError
  | ServerFailure
  | NameError
  | NotImplemented
  | Refused
deriving DecidableEq

/-- The `self.response_code as u8` discriminant values. -/
def ResponseCode.into_num : ResponseCode → Nat
  | .NoError => 0
  | .FormatError => 1
  | .ServerFailure => 2
  | .NameError => 3
  | .NotImplemented => 4
  | .Refused => 5

/-- TryFrom u8 for ResponseCode: 6..=15 is a hard decode error. -/
def ResponseCode.try_from (value : Nat) : Except ReaderError ResponseCode :=
  if value = 0 then .ok .NoError
  else if value = 1 then .ok .FormatError
  else if value = 2 then .ok .ServerFailure
  else if value = 3 then .ok .NameError
  else if value = 4 then .ok .NotImplemented
  else if value = 5 then .ok .Refused
  else .error (.invalidResponseCode value)

/-- The id/flags/response-code part of the header.  This is the struct named
Header in donos-parser/src/packet/header.rs and PartialHeader in donos-proto
(whose packet/header.rs is not in the source tree). -/
structure PartialHeader where
  id : Nat
  recursion_desired : Bool
  truncated_message : Bool
  authoritative_answer : Bool
  opcode : Nat
  response : Bool
  response_code : ResponseCode
  checking_disabled : Bool
  authed_data : Bool
  z : Bool
  recursion_available : Bool
deriving DecidableEq

/-- Header::default (all fields zero / false / NoError). -/
def PartialHeader.default : PartialHeader :=
  { id := 0, recursion_desired := false, truncated_message := false,
    authoritative_answer := false, opcode := 0, response := false,
    response_code := .NoError, checking_disabled := false, authed_data := false,
    z := false, recursion_available := false }

/-- Header::read of donos-parser/src/packet/header.rs: reads the first four
octets (id plus the two packed flag bytes).  A bit test `(x & (1 << k)) > 0`
is rendered as a Nat inequality against zero. -/
def PartialHeader.read (buffer : BytePacketBuffer) :
    Except ReaderError (PartialHeader × BytePacketBuffer) :=
  match buffer.read_u16 with
  | .error e => .error e
  | .ok (id, b1) =>
    match b1.read with
    | .error e => .error e
    | .ok (head, b2) =>
      match b2.read with
      | .error e => .error e
      | .ok (tail, b3) =>
        match ResponseCode.try_from (tail &&& 0x0F) with
        | .error e => .error e
        | .ok rc =>
          .ok ({ id := id,
                 recursion_desired := (head &&& (1 <<< 0)) != 0,
                 truncated_message := (head &&& (1 <<< 1)) != 0,
                 authoritative_answer := (head &&& (1 <<< 2)) != 0,
                 opcode := (head >>> 3) &&& 0x0F,
                 response := (head &&& (1 <<< 7)) != 0,
                 response_code := rc,
                 checking_disabled := (tail &&& (1 <<< 4)) != 0,
                 authed_data := (tail &&& (1 <<< 5)) != 0,
                 z := (tail &&& (1 <<< 6)) != 0,
                 recursion_available := (tail &&& (1 <<< 7)) != 0 }, b3)

/-- Header::write of donos-parser/src/packet/header.rs. -/
def PartialHeader.write (h : PartialHeader) (buffer : BytePacketBuffer) :
    Except WriterError BytePacketBuffer :=
  match buffer.write_u16 h.id with
  | .error e => .error e
  | .ok b1 =>
    match b1.write_u8 (h.recursion_desired.toNat
        ||| (h.truncated_message.toNat <<< 1)
        ||| (h.authoritative_answer.toNat <<< 2)
        ||| (h.opcode <<< 3)
        ||| (h.response.toNat <<< 7)) with
    | .error e => .error e
    | .ok b2 =>
      b2.write_u8 (h.response_code.into_num
        ||| (h.checking_disabled.toNat <<< 4)
        ||| (h.authed_data.toNat <<< 5)
        ||| (h.z.toNat <<< 6)
        ||| (h.recursion_available.toNat <<< 7))

/-- A question (donos-proto/src/packet/question.rs Question); the name is a
byte-list hostname. -/
structure Question where
  name : List Nat
  qtype : QueryType
  qclass : DnsClass
deriving DecidableEq

/-- Question::new (qclass defaults to Internet). -/
def Question.new (name : List Nat) (qtype : QueryType) : Question :=
  { name := name, qtype := qtype, qclass := .Internet }

/-- Question::read. -/
def Question.read (buffer : BytePacketBuffer) :
    Except ReaderError (Question × BytePacketBuffer) :=
  match buffer.read_qname with
  | .error e => .error e
  | .ok (b1, name) =>
    match b1.read_u16 with
    | .error e => .error e
    | .ok (qt, b2) =>
      match b2.read_u16 with
      | .error e => .error e
      | .ok (qc, b3) =>
        match DnsClass.try_from qc with
        | .error e => .error e
        | .ok qclass => .ok ({ name := name, qtype := .from_num qt, qclass := qclass }, b3)

/-- Question::write. -/
def Question.write (q : Question) (buffer : BytePacketBuffer) :
    Except WriterError BytePacketBuffer :=
  match buffer.write_qname q.name with
  | .error e => .error e
  | .ok b1 =>
    match b1.write_u16 q.qtype.into_num with
    | .error e => .error e
    | .ok b2 => b2.write_u16 q.qclass.into_num

/-- Resource records (donos-proto/src/packet/record.rs Record).  An IPv4
address is its raw 32-bit value, an IPv6 address its eight 16-bit segments. -/
inductive Record where
  | Unknown (domain : List Nat) (qtype : Nat) (data_len : Nat) (ttl : Nat)
  | A (domain : List Nat) (addr : Nat) (ttl : Nat)
  | NS (domain : List Nat) (host : List Nat) (ttl : Nat)
  | CNAME (domain : List Nat) (host : List Nat) (ttl : Nat)
  | MX (domain : List Nat) (priority : Nat) (host : List Nat) (ttl : Nat)
  | AAAA (domain : List Nat) (addr : List Nat) (ttl : Nat)
deriving DecidableEq

/-- Record::ttl. -/
def Record.ttl : Record → Nat
  | .Unknown _ _ _ t => t
  | .A _ _ t => t
  | .NS _ _ t => t
  | .CNAME _ _ t => t
  | .MX _ _ _ t => t
  | .AAAA _ _ t => t

/-- Record::delayed_ttl: a copy of the record with a substituted TTL. -/
def Record.delayed_ttl : Record → Nat → Record
  | .Unknown d q l _, t => .Unknown d q l t
  | .A d a _, t => .A d a t
  | .NS d h _, t => .NS d h t
  | .CNAME d h _, t => .CNAME d h t
  | .MX d p h _, t => .MX d p h t
  | .AAAA d a _, t => .AAAA d a t

/-- Record::read: the common prefix (name, type, class, ttl, rdlength) then
the type-directed payload; an unrecognised type skips RDLENGTH octets. -/
def Record.read (buffer : BytePacketBuffer) :
    Except ReaderError (Record × BytePacketBuffer) :=
  match buffer.read_qname with
  | .error e => .error e
  | .ok (b1, domain) =>
    match b1.read_u16 with
    | .error e => .error e
    | .ok (qtype_num, b2) =>
      match b2.read_u16 with
      | .error e => .error e
      | .ok (_qclass, b3) =>
        match b3.read_u32 with
        | .error e => .error e
        | .ok (ttl, b4) =>
          match b4.read_u16 with
          | .error e => .error e
          | .ok (data_len, b5) =>
            match QueryType.from_num qtype_num with
            | .A =>
              match b5.read_u32 with
              | .error e => .error e
              | .ok (raw_addr, b6) => .ok (.A domain raw_addr ttl, b6)
            | .AAAA =>
              match b5.read_u32 with
              | .error e => .error e
              | .ok (r1, b6) =>
                match b6.read_u32 with
                | .error e => .error e
                | .ok (r2, b7) =>
                  match b7.read_u32 with
                  | .error e => .error e
                  | .ok (r3, b8) =>
                    match b8.read_u32 with
                    | .error e => .error e
                    | .ok (r4, b9) =>
                      .ok (.AAAA domain
                        [(r1 >>> 16) &&& 0xFFFF, r1 &&& 0xFFFF,
                         (r2 >>> 16) &&& 0xFFFF, r2 &&& 0xFFFF,
                         (r3 >>> 16) &&& 0xFFFF, r3 &&& 0xFFFF,
                         (r4 >>> 16) &&& 0xFFFF, r4 &&& 0xFFFF] ttl, b9)
            | .NS =>
              match b5.read_qname with
              | .error e => .error e
              | .ok (b6, host) => .ok (.NS domain host ttl, b6)
            | .CNAME =>
              match b5.read_qname with
              | .error e => .error e
              | .ok (b6, host) => .ok (.CNAME domain host ttl, b6)
            | .MX =>
              match b5.read_u16 with
              | .error e => .error e
              | .ok (priority, b6) =>
                match b6.read_qname with
                | .error e => .error e
                | .ok (b7, host) => .ok (.MX domain priority host ttl, b7)
            | .Unknown _ =>
              .ok (.Unknown domain qtype_num data_len ttl, b5.step data_len)

/-- The body of `for octet in &addr.segments() { write_u16 }`. -/
def write_segments : BytePacketBuffer → List Nat → Except WriterError BytePacketBuffer
  | st, [] => .ok st
  | st, s :: rest =>
    match st.write_u16 s with
    | .error e => .error e
    | .ok st1 => write_segments st1 rest

/-- Record::write: returns the number of octets emitted together with the
buffer.  NS, CNAME and MX capture the position of a two-octet RDLENGTH
placeholder and back-patch it with `set_u16` after writing the host name;
the Unknown arm emits nothing (the source merely logs and skips it). -/
def Record.write (r : Record) (buffer : BytePacketBuffer) :
    Except WriterError (Nat × BytePacketBuffer) :=
  let start_pos := buffer.pos
  match r with
  | .A domain addr ttl =>
    match buffer.write_qname domain with
    | .error e => .error e
    | .ok b1 =>
      match b1.write_u16 (QueryType.A.into_num) with
      | .error e => .error e
      | .ok b2 =>
        match b2.write_u16 1 with
        | .error e => .error e
        | .ok b3 =>
          match b3.write_u32 ttl with
          | .error e => .error e
          | .ok b4 =>
            match b4.write_u16 4 with
            | .error e => .error e
            | .ok b5 =>
              match b5.write_u8 ((addr >>> 24) % 256) with
              | .error e => .error e
              | .ok b6 =>
                match b6.write_u8 ((addr >>> 16) % 256) with
                | .error e => .error e
                | .ok b7 =>
                  match b7.write_u8 ((addr >>> 8) % 256) with
                  | .error e => .error e
                  | .ok b8 =>
                    match b8.write_u8 (addr % 256) with
                    | .error e => .error e
                    | .ok b9 => .ok (b9.pos - start_pos, b9)
  | .NS domain host ttl =>
    match buffer.write_qname domain with
    | .error e => .error e
    | .ok b1 =>
      match b1.write_u16 (QueryType.NS.into_num) with
      | .error e => .error e
      | .ok b2 =>
        match b2.write_u16 1 with
        | .error e => .error e
        | .ok b3 =>
          match b3.write_u32 ttl with
          | .error e => .error e
          | .ok b4 =>
            let pos := b4.pos
            match b4.write_u16 0 with
            | .error e => .error e
            | .ok b5 =>
              match b5.write_qname host with
              | .error e => .error e
              | .ok b6 =>
                let size := b6.pos - (pos + 2)
                match b6.set_u16 pos (size % 65536) with
                | .error e => .error e
                | .ok b7 => .ok (b7.pos - start_pos, b7)
  | .CNAME domain host ttl =>
    match buffer.write_qname domain with
    | .error e => .error e
    | .ok b1 =>
      match b1.write_u16 (QueryType.CNAME.into_num) with
      | .error e => .error e
      | .ok b2 =>
        match b2.write_u16 1 with
        | .error e => .error e
        | .ok b3 =>
          match b3.write_u32 ttl with
          | .error e => .error e
          | .ok b4 =>
            let pos := b4.pos
            match b4.write_u16 0 with
            | .error e => .error e
            | .ok b5 =>
              match b5.write_qname host with
              | .error e => .error e
              | .ok b6 =>
                let size := b6.pos - (pos + 2)
                match b6.set_u16 pos (size % 65536) with
                | .error e => .error e
                | .ok b7 => .ok (b7.pos - start_pos, b7)
  | .MX domain priority host ttl =>
    match buffer.write_qname domain with
    | .error e => .error e
    | .ok b1 =>
      match b1.write_u16 (QueryType.MX.into_num) with
      | .error e => .error e
      | .ok b2 =>
        match b2.write_u16 1 with
        | .error e => .error e
        | .ok b3 =>
          match b3.write_u32 ttl with
          | .error e => .error e
          | .ok b4 =>
            let pos := b4.pos
            match b4.write_u16 0 with
            | .error e => .error e
            | .ok b5 =>
              match b5.write_u16 priority with
              | .error e => .error e
              | .ok b6 =>
                match b6.write_qname host with
                | .error e => .error e
                | .ok b7 =>
                  let size := b7.pos - (pos + 2)
                  match b7.set_u16 pos (size % 65536) with
                  | .error e => .error e
                  | .ok b8 => .ok (b8.pos - start_pos, b8)
  | .AAAA domain addr ttl =>
    match buffer.write_qname domain with
    | .error e => .error e
    | .ok b1 =>
      match b1.write_u16 (QueryType.AAAA.into_num) with
      | .error e => .error e
      | .ok b2 =>
        match b2.write_u16 1 with
        | .error e => .error e
        | .ok b3 =>
          match b3.write_u32 ttl with
          | .error e => .error e
          | .ok b4 =>
            match b4.write_u16 16 with
            | .error e => .error e
            | .ok b5 =>
              match write_segments b5 addr with
              | .error e => .error e
              | .ok b6 => .ok (b6.pos - start_pos, b6)
  | .Unknown _ _ _ _ =>
    .ok (buffer.pos - start_pos, buffer)

/-- The `for _ in 0..count { questions.push(Question::read(..)?) }` loop. -/
def read_questions : Nat → BytePacketBuffer → Except ReaderError (List Question × BytePacketBuffer)
  | 0, st => .ok ([], st)
  | n + 1, st =>
    match Question.read st with
    | .error e => .error e
    | .ok (q, st1) =>
      match read_questions n st1 with
      | .error e => .error e
      | .ok (qs, st2) => .ok (q :: qs, st2)

/-- The `for _ in 0..count { records.push(Record::read(..)?) }` loop. -/
def read_records : Nat → BytePacketBuffer → Except ReaderError (List Record × BytePacketBuffer)
  | 0, st => .ok ([], st)
  | n + 1, st =>
    match Record.read st with
    | .error e => .error e
    | .ok (r, st1) =>
      match read_records n st1 with
      | .error e => .error e
      | .ok (rs, st2) => .ok (r :: rs, st2)

/-- The `for question in &self.questions { question.write(..)?; }` loop. -/
def write_questions : BytePacketBuffer → List Question → Except WriterError BytePacketBuffer
  | st, [] => .ok st
  | st, q :: rest =>
    match q.write st with
    | .error e => .error e
    | .ok st1 => write_questions st1 rest

/-- The `for rec in &self.answers { rec.write(..)?; }` loop (the returned
sizes are discarded by the packet writers). -/
def write_records : BytePacketBuffer → List Record → Except WriterError BytePacketBuffer
  | st, [] => .ok st
  | st, r :: rest =>
    match r.write st with
    | .error e => .error e
    | .ok (_, st1) => write_records st1 rest

namespace DonosParser

/-- donos-parser/src/packet/header.rs names this struct Header. -/
abbrev Header := PartialHeader

/-- Header::response_from of donos-parser/src/packet/header.rs: copy id,
opcode and recursion_desired, set response, clear everything else. -/
def Header.response_from (request : Header) : Header :=
  { id := request.id,
    recursion_desired := request.recursion_desired,
    truncated_message := false,
    authoritative_answer := false,
    opcode := request.opcode,
    response := true,
    response_code := .NoError,
    checking_disabled := false,
    authed_data := false,
    z := false,
    recursion_available := false }

/-- The packet of donos-parser/src/packet/mod.rs: a four-octet header (the
section counts live on the wire between the header and the sections, not in
the struct). -/
structure DnsPacket where
  header : Header
  questions : List Question
  answers : List Record
  authorities : List Record
  resources : List Record
deriving DecidableEq

/-- DnsPacket::default. -/
def DnsPacket.default : DnsPacket :=
  { header := PartialHeader.default, questions := [], answers := [],
    authorities := [], resources := [] }

/-- DnsPacket::response_from: reply header via Header::response_from, the
question vector copied, all record sections empty. -/
def DnsPacket.response_from (request : DnsPacket) : DnsPacket :=
  { header := Header.response_from request.header,
    questions := request.questions,
    answers := [], authorities := [], resources := [] }

/-- TryFrom of donos-parser/src/packet/mod.rs: header, then the four
16-bit counts, then exactly that many questions, answers, authorities and
resources in order. -/
def DnsPacket.try_from (buffer : BytePacketBuffer) : Except ReaderError DnsPacket :=
  match PartialHeader.read buffer with
  | .error e => .error e
  | .ok (header, b1) =>
    match b1.read_u16 with
    | .error e => .error e
    | .ok (question_count, b2) =>
      match b2.read_u16 with
      | .error e => .error e
      | .ok (answer_count, b3) =>
        match b3.read_u16 with
        | .error e => .error e
        | .ok (authority_count, b4) =>
          match b4.read_u16 with
          | .error e => .error e
          | .ok (resource_count, b5) =>
            match read_questions question_count b5 with
            | .error e => .error e
            | .ok (questions, b6) =>
              match read_records answer_count b6 with
              | .error e => .error e
              | .ok (answers, b7) =>
                match read_records authority_count b7 with
                | .error e => .error e
                | .ok (authorities, b8) =>
                  match read_records resource_count b8 with
                  | .error e => .error e
                  | .ok (resources, _) =>
                    .ok { header := header, questions := questions,
                          answers := answers, authorities := authorities,
                          resources := resources }

/-- create_buffer of donos-parser/src/packet/mod.rs: write the four-octet
header, then the four counts taken from the vector lengths (`as u16`), then
the sections. -/
def DnsPacket.create_buffer (p : DnsPacket) : Except WriterError BytePacketBuffer :=
  match p.header.write BytePacketBuffer.default with
  | .error e => .error e
  | .ok b1 =>
    match b1.write_u16 (p.questions.length % 65536) with
    | .error e => .error e
    | .ok b2 =>
      match b2.write_u16 (p.answers.length % 65536) with
      | .error e => .error e
      | .ok b3 =>
        match b3.write_u16 (p.authorities.length % 65536) with
        | .error e => .error e
        | .ok b4 =>
          match b4.write_u16 (p.resources.length % 65536) with
          | .error e => .error e
          | .ok b5 =>
            match write_questions b5 p.questions with
            | .error e => .error e
            | .ok b6 =>
              match write_records b6 p.answers with
              | .error e => .error e
              | .ok b7 =>
                match write_records b7 p.authorities with
                | .error e => .error e
                | .ok b8 =>
                  match write_records b8 p.resources with
                  | .error e => .error e
                  | .ok b9 => .ok b9

/-- decode(encode(p)): encode a packet and decode the resulting datagram
from a fresh buffer over its bytes, as the round-trip law of the spec
prescribes. -/
def decode_encode (p : DnsPacket) : Option DnsPacket :=
  match p.create_buffer with
  | .error _ => none
  | .ok buffer =>
    match DnsPacket.try_from (BytePacketBuffer.new buffer.buf) with
    | .error _ => none
    | .ok q => some q

end DonosParser

namespace DonosProto

/-- Modelled from the spec: donos-proto/src/packet/header.rs is not in the
source tree (the handler imports Header, PartialHeader and ResponseCode from
it, and donos-proto/src/packet/mod.rs reads the section counts from the
header).  Following spec section 4.3, the full header is the 12-octet
record: the id/flags/response-code part (PartialHeader) followed by the four
16-bit section counts. -/
structure Header where
  inner : PartialHeader
  questions : Nat
  answers : Nat
  authoritative_entries : Nat
  resource_entries : Nat
deriving DecidableEq

/-- Modelled from the spec: Header::default. -/
def Header.default : Header :=
  { inner := PartialHeader.default, questions := 0, answers := 0,
    authoritative_entries := 0, resource_entries := 0 }

/-- Modelled from the spec: Header::read decodes the twelve header octets —
the id and flag bytes, then the four counts. -/
def Header.read (buffer : BytePacketBuffer) :
    Except ReaderError (Header × BytePacketBuffer) :=
  match PartialHeader.read buffer with
  | .error e => .error e
  | .ok (inner, b1) =>
    match b1.read_u16 with
    | .error e => .error e
    | .ok (questions, b2) =>
      match b2.read_u16 with
      | .error e => .error e
      | .ok (answers, b3) =>
        match b3.read_u16 with
        | .error e => .error e
        | .ok (authoritative_entries, b4) =>
          match b4.read_u16 with
          | .error e => .error e
          | .ok (resource_entries, b5) =>
            .ok ({ inner := inner, questions := questions, answers := answers,
                   authoritative_entries := authoritative_entries,
                   resource_entries := resource_entries }, b5)

/-- Modelled from the spec: Header::write emits the twelve header octets. -/
def Header.write (h : Header) (buffer : BytePacketBuffer) :
    Except WriterError BytePacketBuffer :=
  match h.inner.write buffer with
  | .error e => .error e
  | .ok b1 =>
    match b1.write_u16 h.questions with
    | .error e => .error e
    | .ok b2 =>
      match b2.write_u16 h.answers with
      | .error e => .error e
      | .ok b3 =>
        match b3.write_u16 h.authoritative_entries with
        | .error e => .error e
        | .ok b4 => b4.write_u16 h.resource_entries

/-- The packet of donos-proto/src/packet/mod.rs (the record sections field
is named resources in the source). -/
structure DnsPacket where
  header : Header
  questions : List Question
  answers : List Record
  authorities : List Record
  resources : List Record
deriving DecidableEq

/-- DnsPacket::default. -/
def DnsPacket.default : DnsPacket :=
  { header := Header.default, questions := [], answers := [],
    authorities := [], resources := [] }

/-- TryFrom of donos-proto/src/packet/mod.rs: the counts come from the
decoded header. -/
def DnsPacket.try_from (buffer : BytePacketBuffer) : Except ReaderError DnsPacket :=
  match Header.read buffer with
  | .error e => .error e
  | .ok (header, b1) =>
    match read_questions header.questions b1 with
    | .error e => .error e
    | .ok (questions, b2) =>
      match read_records header.answers b2 with
      | .error e => .error e
      | .ok (answers, b3) =>
        match read_records header.authoritative_entries b3 with
        | .error e => .error e
        | .ok (authorities, b4) =>
          match read_records header.resource_entries b4 with
          | .error e => .error e
          | .ok (resources, _) =>
            .ok { header := header, questions := questions, answers := answers,
                  authorities := authorities, resources := resources }

/-- create_buffer of donos-proto/src/packet/mod.rs: the four header counts
are recomputed from the vector lengths (`as u16`), then the full header and
the sections are written. -/
def DnsPacket.create_buffer (p : DnsPacket) : Except WriterError BytePacketBuffer :=
  let header : Header :=
    { p.header with
      questions := p.questions.length % 65536,
      answers := p.answers.length % 65536,
      authoritative_entries := p.authorities.length % 65536,
      resource_entries := p.resources.length % 65536 }
  match header.write BytePacketBuffer.default with
  | .error e => .error e
  | .ok b1 =>
    match write_questions b1 p.questions with
    | .error e => .error e
    | .ok b2 =>
      match write_records b2 p.answers with
      | .error e => .error e
      | .ok b3 =>
        match write_records b3 p.authorities with
        | .error e => .error e
        | .ok b4 =>
          match write_records b4 p.resources with
          | .error e => .error e
          | .ok b5 => .ok b5

end DonosProto

/-- A UDP message as the server hands it to the handler
(donos-server/src/prelude.rs Message); the socket address is abstracted to a
number, the 512-octet array to a byte list. -/
structure Message where
  address : Nat
  buffer : List Nat
  size : Nat
deriving DecidableEq

/-- src/dns/error.rs HandleError: the service error payloads are external
collaborator types and are erased. -/
inductive HandleError where
  | NoQuestion
  | Blocklist
  | Lookup
  | Blocked
deriving DecidableEq

/-- DnsHandler::try_handle (src/dns/handler.rs): the blocklist and lookup
services are trait objects, passed here as functions returning either a
value or a service error.  Takes the first question, asks the filter, then
the lookup service, and stamps the request id onto the looked-up packet. -/
def try_handle (is_blocked : Nat → List Nat → Except Unit Bool)
    (lookup : List Nat → QueryType → Except Unit DonosProto.DnsPacket)
    (origin : Nat) (packet : DonosProto.DnsPacket) :
    Except HandleError DonosProto.DnsPacket :=
  match packet.questions.head? with
  | none => .error .NoQuestion
  | some question =>
    match is_blocked origin question.name with
    | .error _ => .error .Blocklist
    | .ok true => .error .Blocked
    | .ok false =>
      match lookup question.name question.qtype with
      | .error _ => .error .Lookup
      | .ok result =>
        .ok { result with
              header := { result.header with
                          inner := { result.header.inner with
                                     id := packet.header.inner.id } } }

/-- What the handler does with one message: silence (no reply), a reply
message, or a Rust panic (the `create_buffer().unwrap()` calls and the
`todo!()` in the catch-all error branch). -/
inductive HandlerOutcome where
  | silence
  | reply (message : Message)
  | panic
deriving DecidableEq

/-- DnsHandler::handle (src/dns/handler.rs): decode the datagram (silence on
failure), run try_handle; a successful lookup or a Blocked verdict is
encoded with `create_buffer().unwrap()` (panic on encode failure), the
Blocked branch mutating the request in place to response = true and
response_code = NameError; every other error lands on `todo!()`, a panic. -/
def handle (is_blocked : Nat → List Nat → Except Unit Bool)
    (lookup : List Nat → QueryType → Except Unit DonosProto.DnsPacket)
    (message : Message) : HandlerOutcome :=
  let buffer := BytePacketBuffer.new message.buffer
  match DonosProto.DnsPacket.try_from buffer with
  | .error _ => .silence
  | .ok request =>
    match try_handle is_blocked lookup message.address request with
    | .ok packet =>
      match packet.create_buffer with
      | .ok buf => .reply { address := message.address, buffer := buf.buf, size := buf.pos }
      | .error _ => .panic
    | .error .Blocked =>
      let result : DonosProto.DnsPacket :=
        { request with
          header := { request.header with
                      inner := { request.header.inner with
                                 response := true,
                                 response_code := .NameError } } }
      match result.create_buffer with
      | .ok buf => .reply { address := message.address, buffer := buf.buf, size := buf.pos }
      | .error _ => .panic
    | .error _ => .panic

namespace MemoryCacheService

/-- The cache key (lowercased name, query type) of src/repository/cache.rs. -/
abbrev CacheKey := List Nat × QueryType

/-- The moka cache as a map from key to (expiry deadline, records); time is
in whole seconds (SystemTime at the second granularity the service reads
through Duration::as_secs). -/
abbrev CacheState := List (CacheKey × (Nat × List Record))

/-- records.iter().map(ttl).min(). -/
def min_ttl : List Record → Option Nat
  | [] => none
  | r :: rest =>
    match min_ttl rest with
    | none => some r.ttl
    | some m => some (Nat.min r.ttl m)

/-- MemoryCacheService::persist: skip when the record set is empty,
otherwise store the records under a deadline of now plus the minimum TTL. -/
def persist (now : Nat) (st : CacheState) (qname : List Nat) (qtype : QueryType)
    (records : List Record) : CacheState :=
  match min_ttl records with
  | none => st
  | some m => ((qname, qtype), (now + m, records)) :: assocErase st (qname, qtype)

/-- MemoryCacheService::request: a miss when the key is absent; when present,
`deadline.duration_since(now)` succeeds exactly when now ≤ deadline, in which
case the records are returned with their TTLs rewritten to the remaining
seconds; otherwise the key is invalidated and a miss is returned. -/
def request (now : Nat) (st : CacheState) (qname : List Nat) (qtype : QueryType) :
    CacheState × Option (List Record) :=
  match assocFind st (qname, qtype) with
  | none => (st, none)
  | some (deadline, records) =>
    if now ≤ deadline then
      (st, some (records.map fun record => record.delayed_ttl (deadline - now)))
    else
      (assocErase st (qname, qtype), none)

end MemoryCacheService

/-! ## Supporting lemmas -/

theorem delayed_ttl_ttl (r : Record) (t : Nat) : (r.delayed_ttl t).ttl = t := by
  cases r <;> rfl

/-! ## Claim C8 -/

/-- Claim C8: for every request packet q, response_from(q) yields a packet
whose header id, opcode and recursion_desired equal those of q, whose
response flag is set, whose every other flag is cleared, whose response code
is NoError, and whose question vector equals q's question vector. -/
theorem c8_response_from_properties (q : DonosParser.DnsPacket) :
    (DonosParser.DnsPacket.response_from q).header.id = q.header.id ∧
    (DonosParser.DnsPacket.response_from q).header.opcode = q.header.opcode ∧
    (DonosParser.DnsPacket.response_from q).header.recursion_desired
      = q.header.recursion_desired ∧
    (DonosParser.DnsPacket.response_from q).header.response = true ∧
    (DonosParser.DnsPacket.response_from q).header.authoritative_answer = false ∧
    (DonosParser.DnsPacket.response_from q).header.truncated_message = false ∧
    (DonosParser.DnsPacket.response_from q).header.recursion_available = false ∧
    (DonosParser.DnsPacket.response_from q).header.authed_data = false ∧
    (DonosParser.DnsPacket.response_from q).header.checking_disabled = false ∧
    (DonosParser.DnsPacket.response_from q).header.z = false ∧
    (DonosParser.DnsPacket.response_from q).header.response_code = ResponseCode.NoError ∧
    (DonosParser.DnsPacket.response_from q).questions = q.questions :=
  ⟨rfl, rfl, rfl, rfl, rfl, rfl, rfl, rfl, rfl, rfl, rfl, rfl⟩

/-! ## Claim C4 -/

/-- Claim C4, counterexample: the claim asserts that get_range succeeds
whenever start + len ≤ 512, but the access at start = 511, len = 1 — whose
sum is exactly 512 and which lies entirely inside the buffer — is rejected
with the end-of-buffer error (the source tests end >= 512, not end > 512). -/
theorem c4_get_range_boundary_counterexample :
    511 + 1 ≤ 512 ∧
    BytePacketBuffer.default.get_range 511 1 = .error .endOfBuffer := by
  constructor
  · decide
  · rfl

/-- Claim C4 (amended): get_range(start, len) succeeds and returns the len
octets at [start, start + len) exactly when start + len < 512 — the boundary
start + len = 512, although inside the buffer, is also rejected with the
end-of-buffer error, as is every larger range; and when the machine-width
usize addition start + len would overflow to a value below 512, the source
does not report an error but panics in the slice operation. -/
theorem c4_get_range_characterization (st : BytePacketBuffer) (start len : Nat)
    (hlen : st.buf.length = 512) :
    (start + len < 512 →
      st.get_range start len = .ok ((st.buf.drop start).take len) ∧
      ((st.buf.drop start).take len).length = len) ∧
    (512 ≤ start + len → st.get_range start len = .error .endOfBuffer) ∧
    (∀ s l : Nat, s < 2 ^ 64 → l < 2 ^ 64 → 2 ^ 64 ≤ s + l →
      (s + l) % 2 ^ 64 < 512 → st.get_range_machine s l = none) := by
  refine ⟨?_, ?_, ?_⟩
  · intro h
    constructor
    · unfold BytePacketBuffer.get_range
      rw [if_neg (by omega)]
    · rw [List.length_take, List.length_drop, hlen]
      omega
  · intro h
    unfold BytePacketBuffer.get_range
    rw [if_pos (by omega)]
  · intro s l hs hl hsum hmod
    unfold BytePacketBuffer.get_range_machine
    have he : (s + l) % 2 ^ 64 = s + l - 2 ^ 64 := by omega
    rw [if_neg (by omega), if_neg (by rw [hlen]; omega)]

/-- Claim C4 witness: the amended characterisation applied to the fresh
buffer at start = 2, len = 3 (success) and start = 510, len = 2 (failure). -/
theorem c4_get_range_characterization_witness :
    BytePacketBuffer.default.get_range 2 3
      = .ok ((BytePacketBuffer.default.buf.drop 2).take 3) ∧
    BytePacketBuffer.default.get_range 510 2 = .error .endOfBuffer :=
  ⟨((c4_get_range_characterization BytePacketBuffer.default 2 3 (by decide)).1
      (by decide)).1,
   (c4_get_range_characterization BytePacketBuffer.default 510 2 (by decide)).2.1
      (by decide)⟩

/-! ## Claim C3 -/

/-- A packet holding a single Unknown-type answer record. -/
def c3_unknown_packet : DonosParser.DnsPacket :=
  { header := PartialHeader.default, questions := [],
    answers := [Record.Unknown [] 999 0 0], authorities := [], resources := [] }

/-- Claim C3: the round-trip law decode(encode(p)) = p is asserted to hold
for packets containing Unknown-type records, but the encoder's Unknown arm
emits no octets while create_buffer still counts the record in the answer
count, so decoding the encoded buffer yields a different packet (an Unknown
record with type 0 read from the untouched zero bytes instead of type 999):
the code contradicts the spec it was written to satisfy. -/
theorem c3_unknown_breaks_roundtrip :
    (DonosParser.decode_encode c3_unknown_packet).isSome = true ∧
    DonosParser.decode_encode c3_unknown_packet ≠ some c3_unknown_packet := by
  constructor
  · decide
  · decide

/-! ## Claim C9 -/

/-- Claim C9: a label of 64 octets or more must always fail with the
single-label-too-long error, yet the writer computes `label.len() as u8`
before comparing with 0x3f, so a label of 256 octets truncates to length 0,
passes the check, and encodes successfully (with a zero length octet): the
code contradicts the intent expressed by its own error variant and by the
donos-parser writer, which compares the untruncated usize length. -/
theorem c9_oversized_label_encodes :
    63 < (List.replicate 256 97 : List Nat).length ∧
    (BytePacketBuffer.default.write_qname (List.replicate 256 97)).isOk = true := by
  constructor
  · decide
  · decide

/-! ## Claim C7 -/

/-- A concrete cached A record and a one-entry cache whose deadline is 100. -/
def c7_record : Record := Record.A [97] 16909060 42

/-- One-entry cache state with expiry deadline 100. -/
def c7_state : MemoryCacheService.CacheState :=
  [(([97], QueryType.A), (100, [c7_record]))]

/-- Claim C7, counterexample: the claim requires a deadline at or before the
query time to evict and miss, but a query at exactly the deadline is a hit —
duration_since returns Ok(0) — so the records are served with TTL 0 and the
entry is not evicted. -/
theorem c7_deadline_equal_counterexample :
    MemoryCacheService.request 100 c7_state [97] QueryType.A
      = (c7_state, some [Record.A [97] 16909060 0]) := by
  decide

/-- Claim C7 (amended): the cache read returns a miss and leaves the state
unchanged when there is no entry; when an entry exists and its deadline is
strictly before the query time it evicts the key and returns a miss; and
when the deadline is at or after the query time (equality included) it
returns the stored records with each record's TTL rewritten to the seconds
remaining until the deadline. -/
theorem c7_request_characterization (now : Nat) (st : MemoryCacheService.CacheState)
    (qname : List Nat) (qtype : QueryType) :
    (assocFind st (qname, qtype) = none →
      MemoryCacheService.request now st qname qtype = (st, none)) ∧
    (∀ deadline records,
      assocFind st (qname, qtype) = some (deadline, records) → deadline < now →
      MemoryCacheService.request now st qname qtype
        = (assocErase st (qname, qtype), none)) ∧
    (∀ deadline records,
      assocFind st (qname, qtype) = some (deadline, records) → now ≤ deadline →
      MemoryCacheService.request now st qname qtype
        = (st, some (records.map fun record => record.delayed_ttl (deadline - now))) ∧
      ∀ record, record ∈ records →
        (record.delayed_ttl (deadline - now)).ttl = deadline - now) := by
  refine ⟨?_, ?_, ?_⟩
  · intro h
    unfold MemoryCacheService.request
    rw [h]
  · intro deadline records h hlt
    unfold MemoryCacheService.request
    rw [h]
    simp only
    rw [if_neg (by omega)]
  · intro deadline records h hle
    constructor
    · unfold MemoryCacheService.request
      rw [h]
      simp only
      rw [if_pos hle]
    · intro record _
      exact delayed_ttl_ttl record (deadline - now)

/-- Claim C7 witness: the amended characterisation applied to the one-entry
cache at query time 200 (strictly past the deadline 100): the entry is
evicted and a miss returned. -/
theorem c7_request_characterization_witness :
    MemoryCacheService.request 200 c7_state [97] QueryType.A = ([], none) :=
  ((c7_request_characterization 200 c7_state [97] QueryType.A).2.1 100 [c7_record]
    (by decide) (by decide)).trans (by decide)

/-! ## Claim C1 -/

/-- Every reader result is a packet or one of the four enumerated decode
errors, because ReaderError has exactly those constructors. -/
theorem reader_result_enumerated {α : Type} (r : Except ReaderError α) :
    (∃ p, r = .ok p) ∨ r = .error .endOfBuffer ∨
    (∃ n, r = .error (.tooManyJumps n)) ∨
    (∃ c, r = .error (.invalidResponseCode c)) ∨
    (∃ c, r = .error (.invalidClass c)) := by
  cases r with
  | ok p => exact Or.inl ⟨p, rfl⟩
  | error e =>
    cases e with
    | endOfBuffer => exact Or.inr (Or.inl rfl)
    | tooManyJumps n => exact Or.inr (Or.inr (Or.inl ⟨n, rfl⟩))
    | invalidResponseCode c => exact Or.inr (Or.inr (Or.inr (Or.inl ⟨c, rfl⟩)))
    | invalidClass c => exact Or.inr (Or.inr (Or.inr (Or.inr ⟨c, rfl⟩)))

/-- Claim C1: decoding any 512-octet buffer (hence any input datagram of at
most 512 bytes, zero-padded into a fresh buffer) terminates and yields
either a packet or one of the enumerated decode errors — end of buffer, too
many jumps, invalid response code, invalid class — for both embedded
decoders (donos-parser/src/packet/mod.rs and donos-proto/src/packet/mod.rs).
Termination and absence of panics are witnessed by the embedding itself:
both decoders are total Lean functions built from bounds-checked primitives,
the name decoder's recursion being exhausted by a proved fuel bound
(recursive_read_qname_fuel_sufficient), and no result outside the error
enumeration exists. -/
theorem c1_decode_total_with_enumerated_errors (buffer : BytePacketBuffer) :
    ((∃ p, DonosParser.DnsPacket.try_from buffer = .ok p) ∨
     DonosParser.DnsPacket.try_from buffer = .error .endOfBuffer ∨
     (∃ n, DonosParser.DnsPacket.try_from buffer = .error (.tooManyJumps n)) ∨
     (∃ c, DonosParser.DnsPacket.try_from buffer = .error (.invalidResponseCode c)) ∨
     (∃ c, DonosParser.DnsPacket.try_from buffer = .error (.invalidClass c))) ∧
    ((∃ p, DonosProto.DnsPacket.try_from buffer = .ok p) ∨
     DonosProto.DnsPacket.try_from buffer = .error .endOfBuffer ∨
     (∃ n, DonosProto.DnsPacket.try_from buffer = .error (.tooManyJumps n)) ∨
     (∃ c, DonosProto.DnsPacket.try_from buffer = .error (.invalidResponseCode c)) ∨
     (∃ c, DonosProto.DnsPacket.try_from buffer = .error (.invalidClass c))) :=
  ⟨reader_result_enumerated _, reader_result_enumerated _⟩

/-! ## Claim C10 -/

theorem error_result_ne_panic {α : Type} {e : WriterError} (he : e ≠ .panicked) :
    (.error e : Except WriterError α) ≠ .error .panicked := by
  intro hc
  injection hc with h
  exact he h

theorem write_error_eob {st : BytePacketBuffer} {v : Nat} {e : WriterError}
    (h : st.write v = .error e) : e = .endOfBuffer := by
  unfold BytePacketBuffer.write at h
  split at h
  · injection h with h1
    exact h1.symm
  · cases h

theorem write_u8_error_eob {st : BytePacketBuffer} {v : Nat} {e : WriterError}
    (h : st.write_u8 v = .error e) : e = .endOfBuffer :=
  write_error_eob h

theorem write_u16_error_eob {st : BytePacketBuffer} {v : Nat} {e : WriterError}
    (h : st.write_u16 v = .error e) : e = .endOfBuffer := by
  unfold BytePacketBuffer.write_u16 at h
  split at h
  · rename_i e1 h1
    injection h with h2
    subst h2
    exact write_error_eob h1
  · exact write_error_eob h

theorem write_u32_error_eob {st : BytePacketBuffer} {v : Nat} {e : WriterError}
    (h : st.write_u32 v = .error e) : e = .endOfBuffer := by
  unfold BytePacketBuffer.write_u32 at h
  split at h
  · rename_i e1 h1
    injection h with h2
    subst h2
    exact write_error_eob h1
  · split at h
    · rename_i e2 h2
      injection h with h3
      subst h3
      exact write_error_eob h2
    · split at h
      · rename_i e3 h3
        injection h with h4
        subst h4
        exact write_error_eob h3
      · exact write_error_eob h

theorem write_bytes_error_eob :
    ∀ {l : List Nat} {st : BytePacketBuffer} {e : WriterError},
      write_bytes st l = .error e → e = .endOfBuffer := by
  intro l
  induction l with
  | nil =>
    intro st e h
    simp [write_bytes] at h
  | cons b rest ih =>
    intro st e h
    unfold write_bytes at h
    split at h
    · rename_i e1 h1
      injection h with h2
      subst h2
      exact write_u8_error_eob h1
    · exact ih h

theorem write_label_error_shape {st : BytePacketBuffer} {label : List Nat} {e : WriterError}
    (h : st.write_label label = .error e) : e ≠ .panicked := by
  simp only [BytePacketBuffer.write_label] at h
  split at h
  · injection h with h1
    subst h1
    simp
  · split at h
    · rename_i e1 h1
      injection h with h2
      subst h2
      rw [write_u8_error_eob h1]
      simp
    · rw [write_bytes_error_eob h]
      simp

theorem recursive_write_qname_cap_error_shape :
    ∀ {fuel : Nat} {st : BytePacketBuffer} {qname : List Nat} {e : WriterError},
      recursive_write_qname_cap fuel st qname = some (.error e) → e ≠ .panicked := by
  intro fuel
  induction fuel with
  | zero =>
    intro st qname e h
    simp [recursive_write_qname_cap] at h
  | succ fuel ih =>
    intro st qname e h
    rw [recursive_write_qname_cap] at h
    split at h
    · split at h
      · rename_i e1 h1
        injection h with h2
        injection h2 with h3
        subst h3
        rw [write_u16_error_eob h1]
        simp
      · cases h
    · split at h
      · simp only [] at h
        split at h
        · rename_i e1 h1
          injection h with h2
          injection h2 with h3
          subst h3
          exact write_label_error_shape h1
        · exact ih h
      · simp only [] at h
        split at h
        · rename_i e1 h1
          injection h with h2
          injection h2 with h3
          subst h3
          exact write_label_error_shape h1
        · cases h

theorem write_qname_error_shape {st : BytePacketBuffer} {qname : List Nat} {e : WriterError}
    (h : st.write_qname qname = .error e) : e ≠ .panicked := by
  unfold BytePacketBuffer.write_qname at h
  split at h
  · rename_i heq
    injection h with h1
    subst h1
    exact recursive_write_qname_cap_error_shape heq
  · cases h
  · rename_i heq
    exact fun hp => by
      subst hp
      exact absurd (write_u8_error_eob h) (by simp)
  · rename_i heq
    exact absurd heq (recursive_write_qname_fuel_sufficient _ _ _ (by omega))

theorem write_segments_error_eob :
    ∀ {l : List Nat} {st : BytePacketBuffer} {e : WriterError},
      write_segments st l = .error e → e = .endOfBuffer := by
  intro l
  induction l with
  | nil =>
    intro st e h
    simp [write_segments] at h
  | cons s rest ih =>
    intro st e h
    unfold write_segments at h
    split at h
    · rename_i e1 h1
      injection h with h2
      subst h2
      exact write_u16_error_eob h1
    · exact ih h

theorem write_ok_pos {st st1 : BytePacketBuffer} {v : Nat}
    (h : st.write v = .ok st1) : st.pos < 512 ∧ st1.pos = st.pos + 1 := by
  unfold BytePacketBuffer.write at h
  split at h
  · cases h
  · rename_i hge
    injection h with h1
    subst h1
    exact ⟨by omega, rfl⟩

/-- A successful two-octet write at the cursor pins the cursor strictly
below 511, which is what makes the later unchecked back-patch at the same
position safe. -/
theorem write_u16_ok_pos {st st2 : BytePacketBuffer} {v : Nat}
    (h : st.write_u16 v = .ok st2) : st.pos + 2 ≤ 512 := by
  unfold BytePacketBuffer.write_u16 at h
  cases h1 : st.write ((v >>> 8) % 256) with
  | error e1 =>
    rw [h1] at h
    cases h
  | ok st1 =>
    rw [h1] at h
    have p1 := write_ok_pos h1
    have p2 := write_ok_pos h
    omega

theorem set_u16_ok (st : BytePacketBuffer) (pos v : Nat) (h : pos + 2 ≤ 512) :
    ∃ st2, st.set_u16 pos v = .ok st2 := by
  unfold BytePacketBuffer.set_u16 BytePacketBuffer.set
  rw [if_pos (by omega)]
  simp only
  rw [if_pos (by omega)]
  exact ⟨_, rfl⟩

/-- Claim C10: Record::write can never hit the unchecked array indexing in
set/set_u16 out of bounds: in the NS, CNAME and MX arms the RDLENGTH
placeholder position was just written by a successful checked write_u16, so
it is at most 510 and the back-patch touches only positions pos and pos + 1,
both strictly below 512.  Stated as: encoding any record in any buffer
state never produces the panic outcome. -/
theorem eob_ne_panic {e : WriterError} (h1 : e = .endOfBuffer) (h2 : e = .panicked) :
    False := by
  subst h1
  cases h2

/-- Claim C10: Record::write can never hit the unchecked array indexing in
set/set_u16 out of bounds: in the NS, CNAME and MX arms the RDLENGTH
placeholder position was just written by a successful checked write_u16, so
it is at most 510 and the back-patch touches only positions pos and pos + 1,
both strictly below 512.  Stated as: encoding any record in any buffer
state never produces the panic outcome. -/
theorem c10_record_write_never_panics (r : Record) (buffer : BytePacketBuffer) :
    r.write buffer ≠ .error .panicked := by
  intro hc
  cases r with
  | A domain addr ttl =>
    simp only [Record.write] at hc
    split at hc
    · rename_i e1 h1
      injection hc with h2
      exact write_qname_error_shape h1 h2
    · split at hc
      · rename_i e1 h1
        injection hc with h2
        exact eob_ne_panic (write_u16_error_eob h1) h2
      · split at hc
        · rename_i e1 h1
          injection hc with h2
          exact eob_ne_panic (write_u16_error_eob h1) h2
        · split at hc
          · rename_i e1 h1
            injection hc with h2
            exact eob_ne_panic (write_u32_error_eob h1) h2
          · split at hc
            · rename_i e1 h1
              injection hc with h2
              exact eob_ne_panic (write_u16_error_eob h1) h2
            · split at hc
              · rename_i e1 h1
                injection hc with h2
                exact eob_ne_panic (write_u8_error_eob h1) h2
              · split at hc
                · rename_i e1 h1
                  injection hc with h2
                  exact eob_ne_panic (write_u8_error_eob h1) h2
                · split at hc
                  · rename_i e1 h1
                    injection hc with h2
                    exact eob_ne_panic (write_u8_error_eob h1) h2
                  · split at hc
                    · rename_i e1 h1
                      injection hc with h2
                      exact eob_ne_panic (write_u8_error_eob h1) h2
                    · cases hc
  | NS domain host ttl =>
    simp only [Record.write] at hc
    split at hc
    · rename_i e1 h1
      injection hc with h2
      exact write_qname_error_shape h1 h2
    · split at hc
      · rename_i e1 h1
        injection hc with h2
        exact eob_ne_panic (write_u16_error_eob h1) h2
      · split at hc
        · rename_i e1 h1
          injection hc with h2
          exact eob_ne_panic (write_u16_error_eob h1) h2
        · split at hc
          · rename_i e1 h1
            injection hc with h2
            exact eob_ne_panic (write_u32_error_eob h1) h2
          · rename_i b4 h4
            split at hc
            · rename_i e1 h1
              injection hc with h2
              exact eob_ne_panic (write_u16_error_eob h1) h2
            · rename_i b5 h5
              split at hc
              · rename_i e1 h1
                injection hc with h2
                exact write_qname_error_shape h1 h2
              · rename_i b6 h6
                split at hc
                · rename_i e1 h1
                  obtain ⟨st2, hst2⟩ := set_u16_ok b6 b4.pos
                    ((b6.pos - (b4.pos + 2)) % 65536) (write_u16_ok_pos h5)
                  rw [hst2] at h1
                  cases h1
                · cases hc
  | CNAME domain host ttl =>
    simp only [Record.write] at hc
    split at hc
    · rename_i e1 h1
      injection hc with h2
      exact write_qname_error_shape h1 h2
    · split at hc
      · rename_i e1 h1
        injection hc with h2
        exact eob_ne_panic (write_u16_error_eob h1) h2
      · split at hc
        · rename_i e1 h1
          injection hc with h2
          exact eob_ne_panic (write_u16_error_eob h1) h2
        · split at hc
          · rename_i e1 h1
            injection hc with h2
            exact eob_ne_panic (write_u32_error_eob h1) h2
          · rename_i b4 h4
            split at hc
            · rename_i e1 h1
              injection hc with h2
              exact eob_ne_panic (write_u16_error_eob h1) h2
            · rename_i b5 h5
              split at hc
              · rename_i e1 h1
                injection hc with h2
                exact write_qname_error_shape h1 h2
              · rename_i b6 h6
                split at hc
                · rename_i e1 h1
                  obtain ⟨st2, hst2⟩ := set_u16_ok b6 b4.pos
                    ((b6.pos - (b4.pos + 2)) % 65536) (write_u16_ok_pos h5)
                  rw [hst2] at h1
                  cases h1
                · cases hc
  | MX domain priority host ttl =>
    simp only [Record.write] at hc
    split at hc
    · rename_i e1 h1
      injection hc with h2
      exact write_qname_error_shape h1 h2
    · split at hc
      · rename_i e1 h1
        injection hc with h2
        exact eob_ne_panic (write_u16_error_eob h1) h2
      · split at hc
        · rename_i e1 h1
          injection hc with h2
          exact eob_ne_panic (write_u16_error_eob h1) h2
        · split at hc
          · rename_i e1 h1
            injection hc with h2
            exact eob_ne_panic (write_u32_error_eob h1) h2
          · rename_i b4 h4
            split at hc
            · rename_i e1 h1
              injection hc with h2
              exact eob_ne_panic (write_u16_error_eob h1) h2
            · rename_i b5 h5
              split at hc
              · rename_i e1 h1
                injection hc with h2
                exact eob_ne_panic (write_u16_error_eob h1) h2
              · rename_i b5x h5x
                split at hc
                · rename_i e1 h1
                  injection hc with h2
                  exact write_qname_error_shape h1 h2
                · rename_i b6 h6
                  split at hc
                  · rename_i e1 h1
                    obtain ⟨st2, hst2⟩ := set_u16_ok b6 b4.pos
                      ((b6.pos - (b4.pos + 2)) % 65536) (write_u16_ok_pos h5)
                    rw [hst2] at h1
                    cases h1
                  · cases hc
  | AAAA domain addr ttl =>
    simp only [Record.write] at hc
    split at hc
    · rename_i e1 h1
      injection hc with h2
      exact write_qname_error_shape h1 h2
    · split at hc
      · rename_i e1 h1
        injection hc with h2
        exact eob_ne_panic (write_u16_error_eob h1) h2
      · split at hc
        · rename_i e1 h1
          injection hc with h2
          exact eob_ne_panic (write_u16_error_eob h1) h2
        · split at hc
          · rename_i e1 h1
            injection hc with h2
            exact eob_ne_panic (write_u32_error_eob h1) h2
          · split at hc
            · rename_i e1 h1
              injection hc with h2
              exact eob_ne_panic (write_u16_error_eob h1) h2
            · split at hc
              · rename_i e1 h1
                injection hc with h2
                exact eob_ne_panic (write_segments_error_eob h1) h2
              · cases hc
  | Unknown domain qtype data_len ttl =>
    simp only [Record.write] at hc
    cases hc

/-! ## Claim C2 -/

/-- Raising the jump budget cannot change a decoding that did not fail with
too-many-jumps: a run under budget m that does not report too-many-jumps
never consulted the guard beyond jump depth m, so the identical run happens
under any larger budget. -/
theorem recursive_read_qname_cap_mono :
    ∀ (fuel : Nat) {m m2 : Nat}, m ≤ m2 →
      ∀ (st : BytePacketBuffer) (position jumps_count : Nat)
        (r : Except ReaderError (BytePacketBuffer × List Nat × Nat)),
        recursive_read_qname_cap m fuel st position jumps_count = some r →
        (∀ n, r ≠ .error (.tooManyJumps n)) →
        recursive_read_qname_cap m2 fuel st position jumps_count = some r := by
  intro fuel
  induction fuel with
  | zero =>
    intro m m2 hm st position jumps r h hr
    simp [recursive_read_qname_cap] at h
  | succ fuel ih =>
    intro m m2 hm st position jumps r h hr
    rw [recursive_read_qname_cap] at h
    rw [recursive_read_qname_cap]
    split at h
    · rename_i hj
      injection h with h1
      exact absurd h1 (fun he => hr m he.symm)
    · rename_i hj
      rw [if_neg (by omega)]
      split at h
      · exact h
      · rename_i len heq
        split at h
        · rename_i hptr
          rw [if_pos hptr]
          split at h
          · exact h
          · rename_i b2 heq2
            simp only [] at h ⊢
            split at h
            · exact h
            · rename_i heq3
              cases hin : recursive_read_qname_cap m fuel st
                  (((len ^^^ 0xC0) <<< 8) ||| b2) (jumps + 1) with
              | none =>
                rw [hin] at h
                simp at h
              | some rin =>
                cases rin with
                | error e =>
                  rw [hin] at h
                  simp only [] at h
                  have hnt : ∀ n, (Except.error e :
                      Except ReaderError (BytePacketBuffer × List Nat × Nat))
                        ≠ .error (.tooManyJumps n) := by
                    intro n he
                    injection h with h1
                    injection he with he1
                    exact hr n (by rw [← h1, he1])
                  rw [ih hm st _ _ _ hin hnt]
                  exact h
                | ok t =>
                  rw [hin] at h
                  have hnt : ∀ n, (Except.ok t :
                      Except ReaderError (BytePacketBuffer × List Nat × Nat))
                        ≠ .error (.tooManyJumps n) := by
                    intro n he
                    cases he
                  rw [ih hm st _ _ _ hin hnt]
                  obtain ⟨t1, t2, t3⟩ := t
                  exact h
        · rename_i hptr
          rw [if_neg hptr]
          split at h
          · rename_i hz
            rw [if_pos hz]
            exact h
          · rename_i hz
            rw [if_neg hz]
            split at h
            · exact h
            · rename_i str heq2
              cases hin : recursive_read_qname_cap m fuel st
                  (position + 1 + len) jumps with
              | none =>
                rw [hin] at h
                simp at h
              | some rin =>
                cases rin with
                | error e =>
                  rw [hin] at h
                  simp only [] at h
                  have hnt : ∀ n, (Except.error e :
                      Except ReaderError (BytePacketBuffer × List Nat × Nat))
                        ≠ .error (.tooManyJumps n) := by
                    intro n he
                    injection h with h1
                    injection he with he1
                    exact hr n (by rw [← h1, he1])
                  rw [ih hm st _ _ _ hin hnt]
                  exact h
                | ok t =>
                  rw [hin] at h
                  have hnt : ∀ n, (Except.ok t :
                      Except ReaderError (BytePacketBuffer × List Nat × Nat))
                        ≠ .error (.tooManyJumps n) := by
                    intro n he
                    cases he
                  rw [ih hm st _ _ _ hin hnt]
                  obtain ⟨t1, t2, t3⟩ := t
                  exact h

/-- read_qname is the wrapper of the budget-MAX_JUMP recursion: knowing the
recursion's outcome determines read_qname's. -/
theorem read_qname_eq_of_cap {st : BytePacketBuffer}
    {r : Except ReaderError (BytePacketBuffer × List Nat × Nat)}
    (h : recursive_read_qname_cap MAX_JUMP READ_QNAME_FUEL st st.pos 0 = some r) :
    st.read_qname = match r with
      | .ok (st1, label, position) => .ok ({ st1 with pos := position }, label)
      | .error e => .error e := by
  unfold BytePacketBuffer.read_qname
  split
  · rename_i st1 label position heq
    rw [h] at heq
    injection heq with h1
    subst h1
    rfl
  · rename_i e heq
    rw [h] at heq
    injection heq with h1
    subst h1
    rfl
  · rename_i heq
    exact absurd heq (read_qname_fuel_ne_none st)

/-- Claim C2: the name decoder follows at most five compression-pointer
jumps.  First, the concrete self-referential pointer cycle (label "ab"
followed by a pointer back to offset 0) is rejected with the too-many-jumps
error.  Second, for every buffer and starting cursor, the decoder does not
report too-many-jumps exactly when some jump budget of at most five suffices
for the decoding to complete without that error — i.e. inputs needing at
most five pointer follows are never rejected for that reason, and inputs
whose decoding would need more (cycles included) always are. -/
theorem c2_jump_cap_characterization :
    (BytePacketBuffer.new ([2, 97, 98, 192, 0] ++ List.replicate 507 0)).read_qname
      = .error (.tooManyJumps 5) ∧
    ∀ st : BytePacketBuffer,
      ((∃ k r, k ≤ MAX_JUMP ∧ read_qname_cap k st = some r ∧
          ∀ n, r ≠ .error (.tooManyJumps n)) ↔
        (∀ n, st.read_qname ≠ .error (.tooManyJumps n))) := by
  constructor
  · decide
  · intro st
    constructor
    · rintro ⟨k, r, hk, hc, hnt⟩ n heq
      have hmax : recursive_read_qname_cap MAX_JUMP READ_QNAME_FUEL st st.pos 0
          = some r :=
        recursive_read_qname_cap_mono READ_QNAME_FUEL hk st st.pos 0 r hc hnt
      have hq := read_qname_eq_of_cap hmax
      rw [heq] at hq
      cases r with
      | ok t =>
        obtain ⟨t1, t2, t3⟩ := t
        cases hq
      | error e =>
        simp only [] at hq
        injection hq with h1
        exact hnt n (by rw [h1])
    · intro hno
      cases hrun : recursive_read_qname_cap MAX_JUMP READ_QNAME_FUEL st st.pos 0 with
      | none => exact absurd hrun (read_qname_fuel_ne_none st)
      | some r =>
        refine ⟨MAX_JUMP, r, Nat.le_refl _, hrun, ?_⟩
        intro n heq
        subst heq
        have hq := read_qname_eq_of_cap hrun
        simp only [] at hq
        exact hno n hq

/-! ## Claims C5 and C6 -/

/-- A 512-octet datagram carrying a well-formed query: id 1234, recursion
desired, one question for the name "ab", type A, class IN. -/
def good_query_bytes : List Nat :=
  [4, 210, 1, 0, 0, 1, 0, 0, 0, 0, 0, 0, 2, 97, 98, 0, 0, 1, 0, 1]
    ++ List.replicate 492 0

/-- The good query as a server message. -/
def good_query_message : Message :=
  { address := 0, buffer := good_query_bytes, size := 512 }

/-- A blocklist service that blocks every name. -/
def block_all : Nat → List Nat → Except Unit Bool := fun _ _ => .ok true

/-- A blocklist service that blocks nothing. -/
def block_none : Nat → List Nat → Except Unit Bool := fun _ _ => .ok false

/-- A lookup service that fails (upstream error or timeout). -/
def lookup_fail : List Nat → QueryType → Except Unit DonosProto.DnsPacket :=
  fun _ _ => .error ()

/-- The packet the handler decodes from the good query. -/
def good_query_request : DonosProto.DnsPacket :=
  (DonosProto.DnsPacket.try_from (BytePacketBuffer.new good_query_bytes)).toOption.getD
    DonosProto.DnsPacket.default

/-- The good query with the response flag set and response code NameError —
what the handler's Blocked branch encodes. -/
def good_query_blocked_reply : DonosProto.DnsPacket :=
  { good_query_request with
    header := { good_query_request.header with
                inner := { good_query_request.header.inner with
                           response := true,
                           response_code := .NameError } } }

/-- The buffer the Blocked branch produces for the good query. -/
def good_query_blocked_outbuf : BytePacketBuffer :=
  (DonosProto.DnsPacket.create_buffer good_query_blocked_reply).toOption.getD
    BytePacketBuffer.default

/-- A 512-octet datagram whose single question carries a 64-octet label: it
decodes (a length octet of 64 is not a pointer and within bounds) but its
name cannot be re-encoded, since the writer rejects labels above 63 octets. -/
def unencodable_query_bytes : List Nat :=
  [0, 7, 0, 0, 0, 1, 0, 0, 0, 0, 0, 0] ++ [64] ++ List.replicate 64 97
    ++ [0, 0, 1, 0, 1] ++ List.replicate 430 0

/-- Claim C5, counterexample: the claim promises a NameError reply for every
decodable blocked request, but a decodable request whose question holds a
64-octet label cannot be re-encoded, so the Blocked branch's
`create_buffer().unwrap()` panics and the client gets nothing. -/
theorem c5_blocked_request_panics_counterexample :
    (DonosProto.DnsPacket.try_from (BytePacketBuffer.new unencodable_query_bytes)).isOk
      = true ∧
    handle block_all lookup_fail
      { address := 0, buffer := unencodable_query_bytes, size := 512 } = .panic := by
  constructor
  · decide
  · decide

/-- Claim C5 (amended): for every decodable request whose first question the
filter blocks, and whose NameError reply re-encodes successfully (as holds
whenever the question labels are at most 63 octets and the packet fits), the
handler returns a reply message — the encoding of the request mutated to
response = true and response_code = NameError — whose header id equals the
request's id, whose response flag is true and whose response code is
NameError; when the reply cannot be encoded the handler panics instead. -/
theorem c5_blocked_reply_properties
    (is_blocked : Nat → List Nat → Except Unit Bool)
    (lookup : List Nat → QueryType → Except Unit DonosProto.DnsPacket)
    (message : Message) (request : DonosProto.DnsPacket) (question : Question)
    (outbuf : BytePacketBuffer)
    (hdec : DonosProto.DnsPacket.try_from (BytePacketBuffer.new message.buffer)
      = .ok request)
    (hq : request.questions.head? = some question)
    (hb : is_blocked message.address question.name = .ok true)
    (henc : DonosProto.DnsPacket.create_buffer
        { request with
          header := { request.header with
                      inner := { request.header.inner with
                                 response := true,
                                 response_code := .NameError } } } = .ok outbuf) :
    handle is_blocked lookup message
      = .reply { address := message.address, buffer := outbuf.buf, size := outbuf.pos } ∧
    ({ request.header.inner with
        response := true,
        response_code := .NameError } : PartialHeader).id = request.header.inner.id ∧
    ({ request.header.inner with
        response := true,
        response_code := .NameError } : PartialHeader).response = true ∧
    ({ request.header.inner with
        response := true,
        response_code := .NameError } : PartialHeader).response_code
      = ResponseCode.NameError := by
  refine ⟨?_, rfl, rfl, rfl⟩
  simp only [handle, try_handle, hdec, hq, hb, henc]

/-- Claim C5 witness: the amended statement applied to the concrete good
query under the block-everything filter: the handler replies with the
encoded NameError packet. -/
theorem c5_blocked_reply_properties_witness :
    handle block_all lookup_fail good_query_message
      = .reply { address := good_query_message.address,
                 buffer := good_query_blocked_outbuf.buf,
                 size := good_query_blocked_outbuf.pos } :=
  (c5_blocked_reply_properties block_all lookup_fail good_query_message
    good_query_request (Question.new [97, 98] .A) good_query_blocked_outbuf
    (by decide) (by decide) (by decide) (by decide)).1

/-- Claim C6: the claim says filter, cache or upstream lookup errors still
produce a ServerFailure reply, but the handler's catch-all error branch is
`todo!()`: on the concrete decodable query below, with a filter that does
not block and a lookup service that fails, the handler panics and no reply
is sent — while in the donos-parser server (src/cmd/dns.rs) only upstream
lookup errors become ServerFailure, filter and cache errors aborting the
handler with no reply. -/
theorem c6_lookup_error_panics :
    (DonosProto.DnsPacket.try_from (BytePacketBuffer.new good_query_bytes)).isOk = true ∧
    handle block_none lookup_fail good_query_message = .panic := by
  constructor
  · decide
  · decide

end Donos
